import Mathlib

/-!
Shallow embedding of `stbb` (src/src/main.rs), a two-mode terminal
blackboard.  The program never stores text: each key press makes
`App::handle_input` emit a sequence of terminal primitives (relative and
absolute cursor moves, character writes, screen clear, cursor-glyph style,
device-status query).  We embed the emitted operation sequences directly from
the source and give them semantics over a terminal-device state that tracks
the cursor and clamps moves at its edges, as §4.1 and §8 of the specification
describe the device.
-/

namespace Stbb

/-- Cursor glyph styles used by the program: `termion::cursor::SteadyBar`
and `termion::cursor::SteadyBlock`. -/
inductive Glyph where
  | bar : Glyph
  | block : Glyph
deriving DecidableEq, Repr

/-- Decoded key events, mirroring the `termion::event::Key` variants the
program matches on (`Char`, `Ctrl`, `Esc`, `Backspace`); `Other` stands for
every remaining variant, all of which fall into the `_ => {}` arms. -/
inductive Key where
  | Char : Char → Key
  | Ctrl : Char → Key
  | Esc : Key
  | Backspace : Key
  | Other : Key
deriving DecidableEq, Repr

/-- The `Mode` enum of main.rs: `Normal`, or `Insert { entrance }` recording
the absolute (column, row) cursor position when insert mode was entered. -/
inductive Mode where
  | Normal : Mode
  | Insert : (entrance : Nat × Nat) → Mode
deriving DecidableEq, Repr

/-- One terminal primitive emitted on stdout by the program, the vocabulary
of §4.1: relative moves (`termion::cursor::Left/Right/Up/Down`), text writes,
`termion::clear::All`, absolute `termion::cursor::Goto` (1-indexed),
glyph-style changes, the cursor-position query round-trip
(`DetectCursorPos::cursor_pos`), and the raw-mode restoration performed when
the `RawTerminal` is dropped. -/
inductive Op where
  | moveLeft : Nat → Op
  | moveRight : Nat → Op
  | moveUp : Nat → Op
  | moveDown : Nat → Op
  | writeChar : Char → Op
  | writeStr : String → Op
  | clearAll : Op
  | goto : Nat → Nat → Op
  | setGlyph : Glyph → Op
  | query : Op
  | restore : Op
deriving DecidableEq, Repr

/-- Modelled from the spec: the terminal device (§4.1, §8 "fake terminal
device that tracks position and clamps").  The device itself is not part of
the repository; per §4.1 relative moves are clamped at the terminal's own
edges and `gotoCursor` is 1-indexed.  `screen` maps a (column, row) cell to
the character it shows. -/
structure Term where
  width : Nat
  height : Nat
  cursor : Nat × Nat
  screen : Nat × Nat → Char
  glyph : Glyph

/-- Clamp a column to the device's valid range [1, width]. -/
def Term.clampX (t : Term) (x : Nat) : Nat := min t.width (max 1 x)

/-- Clamp a row to the device's valid range [1, height]. -/
def Term.clampY (t : Term) (y : Nat) : Nat := min t.height (max 1 y)

/-- Writing one character: the cell under the cursor takes the character and
the cursor advances one column (clamped at the right edge; line-wrap/scroll
behavior past the edge is out of scope per §4.1). -/
def putChar (t : Term) (c : Char) : Term :=
  { t with
    screen := fun p => if p = t.cursor then c else t.screen p,
    cursor := (t.clampX (t.cursor.1 + 1), t.cursor.2) }

/-- Device semantics of one emitted primitive (modelled from the spec,
§4.1): moves clamp at the edges, `clearAll` blanks every cell and does not
move the cursor, `goto` clamps into the 1-indexed valid range, `query` and
`restore` do not change the screen state. -/
def applyOp (t : Term) : Op → Term
  | Op.moveLeft n => { t with cursor := (max 1 (t.cursor.1 - n), t.cursor.2) }
  | Op.moveRight n => { t with cursor := (t.clampX (t.cursor.1 + n), t.cursor.2) }
  | Op.moveUp n => { t with cursor := (t.cursor.1, max 1 (t.cursor.2 - n)) }
  | Op.moveDown n => { t with cursor := (t.cursor.1, t.clampY (t.cursor.2 + n)) }
  | Op.writeChar c => putChar t c
  | Op.writeStr s => s.data.foldl putChar t
  | Op.clearAll => { t with screen := fun _ => ' ' }
  | Op.goto x y => { t with cursor := (t.clampX x, t.clampY y) }
  | Op.setGlyph g => { t with glyph := g }
  | Op.query => t
  | Op.restore => t

/-- Applying a whole emitted sequence to the device. -/
def applyOps (t : Term) (ops : List Op) : Term := ops.foldl applyOp t

/-- The `MANUAL` constant of main.rs after `indoc!` strips the common
four-space indentation, given as its list of lines (Rust `str::lines`).
Every line is ASCII, so Rust's byte length `line.len()` agrees with
`String.length`. -/
def MANUAL_LINES : List String := [
  "                  .   '||      '||",
  "          ....  .||.   || ...   || ...",
  "         ||. '   ||    ||'  ||  ||'  ||",
  "         . '|..  ||    ||    |  ||    |",
  "         |'..|'  '|.'  '|...'   '|...'",
  "",
  "",
  "Welcome to stbb, the Simple Terminal Blackboard.",
  "",
  "You can type anywhere on the screen but you can't",
  "scroll or save your work. This program doesn't",
  "even store your text in memory. It only sends the",
  "appropriate ANSI escape codes to the terminal to",
  "temporarily display your text.",
  "",
  "There are two modes of operation: Normal mode and",
  "insert mode.",
  "",
  "============= Normal mode commands ==============",
  "q:       Quit the program",
  "hjkl:    Move the cursor. Hold shift to move fast",
  "c:       Clear the entire screen",
  "i:       Enter insert mode",
  "",
  "============= Insert mode commands ==============",
  "Ctrl-[ or ESC:     Go back to normal mode",
  "other keys:        type stuff"]

/-- `get_text_shape` of main.rs: (width, height) of a text given as its
lines, width the fold of `max` over line lengths starting at 0, height the
number of lines. -/
def get_text_shape (lines : List String) : Nat × Nat :=
  (lines.foldl (fun longest line => max longest line.length) 0, lines.length)

/-- `App::handle_input` of main.rs: from the current mode, the device state
(read only through the two `cursor_pos()` call sites) and one key, the
continue flag (`false` exactly for `q` in Normal mode), the next mode, and
the emitted operation sequence, with the source's match arms in order. -/
def handle_input (mode : Mode) (t : Term) (k : Key) : Bool × Mode × List Op :=
  match mode with
  | Mode.Normal =>
    match k with
    | Key.Char c =>
      if c = 'h' then (true, mode, [Op.moveLeft 1])
      else if c = 'l' then (true, mode, [Op.moveRight 1])
      else if c = 'k' then (true, mode, [Op.moveUp 1])
      else if c = 'j' then (true, mode, [Op.moveDown 1])
      else if c = 'H' then (true, mode, [Op.moveLeft 8])
      else if c = 'L' then (true, mode, [Op.moveRight 8])
      else if c = 'K' then (true, mode, [Op.moveUp 6])
      else if c = 'J' then (true, mode, [Op.moveDown 6])
      else if c = 'd' then (true, mode, [Op.writeStr "▘"])
      else if c = 'f' then (true, mode, [Op.writeStr "▖"])
      else if c = 'D' then (true, mode, [Op.writeStr "▀"])
      else if c = 'F' then (true, mode, [Op.writeStr "▄"])
      else if c = ' ' then (true, mode, [Op.writeStr " "])
      else if c = 'c' then (true, mode, [Op.clearAll])
      else if c = 'q' then (false, mode, [])
      else if c = 'i' then
        (true, Mode.Insert t.cursor, [Op.query, Op.setGlyph Glyph.bar])
      else (true, mode, [])
    | _ => (true, mode, [])
  | Mode.Insert entrance =>
    match k with
    | Key.Char c =>
      if c = '\n' then
        (true, Mode.Insert entrance,
         [Op.query, Op.goto entrance.1 (t.cursor.2 + 1)])
      else (true, Mode.Insert entrance, [Op.writeChar c])
    | Key.Ctrl c =>
      if c = '[' then (true, Mode.Normal, [Op.setGlyph Glyph.block])
      else (true, Mode.Insert entrance, [])
    | Key.Esc => (true, Mode.Normal, [Op.setGlyph Glyph.block])
    | Key.Backspace =>
      (true, Mode.Insert entrance, [Op.moveLeft 1, Op.writeChar ' ', Op.moveLeft 1])
    | Key.Other => (true, Mode.Insert entrance, [])

/-- `App::clear_screen` of main.rs: clear everything, then an absolute move
to (1, 1). -/
def clear_screen_ops : List Op := [Op.clearAll, Op.goto 1 1]

/-- `App::show_manual` of main.rs on a terminal of `W` columns and `H` rows:
`none` models the `panic!` when the terminal is strictly smaller than the
manual in either dimension (no operation is emitted); otherwise the emitted
sequence places line `i` at column `manual_origin.0`, row
`manual_origin.1 + i`, and finally parks the cursor at `manual_origin`
plus the fixed relative offset (5, 5). -/
def show_manual (W H : Nat) : Option (List Op) :=
  let manual_size := get_text_shape MANUAL_LINES
  if W < manual_size.1 ∨ H < manual_size.2 then none
  else
    let manual_origin := ((W - manual_size.1) / 2, (H - manual_size.2) / 2)
    let cursor_absolute := (manual_origin.1 + 5, manual_origin.2 + 5)
    some ((MANUAL_LINES.enum.map fun p =>
            [Op.goto manual_origin.1 (manual_origin.2 + p.1), Op.writeStr p.2]).flatten
          ++ [Op.goto cursor_absolute.1 cursor_absolute.2])

/-- The key-read loop of `App::run`: process keys one at a time, applying
each key's emitted operations to the device, until `handle_input` returns
`false` (the `q` path, which emits nothing and breaks).  Returns the final
mode, the final device state, the concatenated emitted operations, and the
keys left unconsumed after the loop exits. -/
def run_loop : Mode → Term → List Key → Mode × Term × List Op × List Key
  | m, t, [] => (m, t, [], [])
  | m, t, k :: ks =>
    let r := handle_input m t k
    if r.1 then
      let rest := run_loop r.2.1 (applyOps t r.2.2) ks
      (rest.1, rest.2.1, r.2.2 ++ rest.2.2.1, rest.2.2.2)
    else (r.2.1, t, r.2.2, ks)

/-- Everything `App::run` (started from `main`) emits on a `W` × `H`
terminal fed the given keys: the startup clear, the manual, the loop's
output, the final `Goto(10000, 10000)`, and then exactly one raw-mode
restoration.  The restoration is modelled from the spec: §4.1 `close()` is
"invoked exactly once per successful open()" on the quit path — in the
source it is the `RawTerminal` drop at the end of `main`, code outside this
repository.  `none` models the `panic!` in `show_manual` (a path on which
the terminal is not restored, the gap §7 flags). -/
def run_trace (W H : Nat) (t : Term) (keys : List Key) : Option (List Op) :=
  match show_manual W H with
  | none => none
  | some manual_ops =>
    let t1 := applyOps (applyOps t clear_screen_ops) manual_ops
    some (clear_screen_ops ++ manual_ops ++ (run_loop Mode.Normal t1 keys).2.2.1
          ++ [Op.goto 10000 10000, Op.restore])

/-- The operations emitted before the read loop starts: `App::run` calls
`clear_screen` and then `show_manual`. -/
def startup_ops (W H : Nat) : List Op :=
  clear_screen_ops ++ (show_manual W H).getD []

/-- The glyph that §3's invariant pairs with a mode: a bar for Insert, a
block for Normal. -/
def modeGlyph : Mode → Glyph
  | Mode.Normal => Glyph.block
  | Mode.Insert _ => Glyph.bar

/-- Whether an operation is an absolute cursor move. -/
def isGoto : Op → Bool
  | Op.goto _ _ => true
  | _ => false

/-- Whether an operation changes the cursor glyph. -/
def isSetGlyph : Op → Bool
  | Op.setGlyph _ => true
  | _ => false

/-- Whether every `clearAll` in a sequence has an absolute cursor move
somewhere after it. -/
def clearFollowedByGoto : List Op → Bool
  | [] => true
  | Op.clearAll :: rest => rest.any isGoto && clearFollowedByGoto rest
  | _ :: rest => clearFollowedByGoto rest

/-- The sixteen characters the Normal-mode match distinguishes, in the
source's arm order. -/
def normalChars : List Char :=
  ['h', 'l', 'k', 'j', 'H', 'L', 'K', 'J', 'd', 'f', 'D', 'F', ' ', 'c', 'q', 'i']

/-- The per-key cursor displacement of the eight Normal-mode movement keys
(h/l/k/j by one cell, H/L by eight columns, K/J by six rows), `none` for
every other key. -/
def moveDelta : Key → Option (Int × Int)
  | Key.Char c =>
    if c = 'h' then some (-1, 0)
    else if c = 'l' then some (1, 0)
    else if c = 'k' then some (0, -1)
    else if c = 'j' then some (0, 1)
    else if c = 'H' then some (-8, 0)
    else if c = 'L' then some (8, 0)
    else if c = 'K' then some (0, -6)
    else if c = 'J' then some (0, 6)
    else none
  | _ => none

/-- Sum of the per-key displacements of a key sequence. -/
def sumDelta (ks : List Key) : Int × Int :=
  (ks.map fun k => (moveDelta k).getD (0, 0)).sum

/-- An 80 by 24 device with the cursor at column 1: the edge case for
Backspace. -/
def t1c : Term :=
  { width := 80, height := 24, cursor := (1, 5), screen := fun _ => 'x', glyph := Glyph.bar }

/-- An 80 by 24 device with the cursor at column 4. -/
def t1w : Term :=
  { width := 80, height := 24, cursor := (4, 5), screen := fun _ => 'x', glyph := Glyph.bar }

/-- A 100 by 40 device with the cursor on the bottom row: the edge case for
Enter in Insert mode. -/
def t2c : Term :=
  { width := 100, height := 40, cursor := (7, 40), screen := fun _ => ' ', glyph := Glyph.bar }

/-- An 80 by 24 device with the cursor at (7, 10). -/
def t2w : Term :=
  { width := 80, height := 24, cursor := (7, 10), screen := fun _ => 'x', glyph := Glyph.block }

/-- A 100 by 40 device whose initial cursor glyph is a bar, as a terminal
may present it before the program starts. -/
def t4c : Term :=
  { width := 100, height := 40, cursor := (1, 1), screen := fun _ => ' ', glyph := Glyph.bar }

/-- An 80 by 24 device with a block glyph, satisfying the glyph invariant
in Normal mode. -/
def t6w : Term :=
  { width := 80, height := 24, cursor := (5, 5), screen := fun _ => ' ', glyph := Glyph.block }

/-- An 80 by 24 device with the cursor at (10, 10). -/
def t8w : Term :=
  { width := 80, height := 24, cursor := (10, 10), screen := fun _ => ' ', glyph := Glyph.block }

/-- A short movement-key sequence: right one, down six, left one. -/
def ks8 : List Key := [Key.Char 'l', Key.Char 'J', Key.Char 'h']

/-- Unfolding of `handle_input` in Normal mode on a character key, with the
source's sixteen match arms as a chain of conditionals. -/
theorem handle_input_normal_char (t : Term) (c : Char) :
    handle_input Mode.Normal t (Key.Char c) =
      (if c = 'h' then (true, Mode.Normal, [Op.moveLeft 1])
      else if c = 'l' then (true, Mode.Normal, [Op.moveRight 1])
      else if c = 'k' then (true, Mode.Normal, [Op.moveUp 1])
      else if c = 'j' then (true, Mode.Normal, [Op.moveDown 1])
      else if c = 'H' then (true, Mode.Normal, [Op.moveLeft 8])
      else if c = 'L' then (true, Mode.Normal, [Op.moveRight 8])
      else if c = 'K' then (true, Mode.Normal, [Op.moveUp 6])
      else if c = 'J' then (true, Mode.Normal, [Op.moveDown 6])
      else if c = 'd' then (true, Mode.Normal, [Op.writeStr "▘"])
      else if c = 'f' then (true, Mode.Normal, [Op.writeStr "▖"])
      else if c = 'D' then (true, Mode.Normal, [Op.writeStr "▀"])
      else if c = 'F' then (true, Mode.Normal, [Op.writeStr "▄"])
      else if c = ' ' then (true, Mode.Normal, [Op.writeStr " "])
      else if c = 'c' then (true, Mode.Normal, [Op.clearAll])
      else if c = 'q' then (false, Mode.Normal, [])
      else if c = 'i' then (true, Mode.Insert t.cursor, [Op.query, Op.setGlyph Glyph.bar])
      else (true, Mode.Normal, [])) := rfl

/-- Unfolding of `handle_input` in Insert mode on a character key. -/
theorem handle_input_insert_char (e : Nat × Nat) (t : Term) (c : Char) :
    handle_input (Mode.Insert e) t (Key.Char c) =
      (if c = '\n' then
        (true, Mode.Insert e, [Op.query, Op.goto e.1 (t.cursor.2 + 1)])
      else (true, Mode.Insert e, [Op.writeChar c])) := rfl

/-- Unfolding of `handle_input` in Insert mode on a Ctrl-modified key. -/
theorem handle_input_insert_ctrl (e : Nat × Nat) (t : Term) (c : Char) :
    handle_input (Mode.Insert e) t (Key.Ctrl c) =
      (if c = '[' then (true, Mode.Normal, [Op.setGlyph Glyph.block])
      else (true, Mode.Insert e, [])) := rfl

/-- Case analysis on the Normal-mode character dispatch: a predicate on the
pressed character and the produced (continue, mode, ops) triple holds for
`handle_input` once it holds on each of the sixteen arms and on the
fall-through. -/
theorem normal_char_cases (t : Term) (P : Char → Bool × Mode × List Op → Prop) (c : Char)
    (h1 : P 'h' (true, Mode.Normal, [Op.moveLeft 1]))
    (h2 : P 'l' (true, Mode.Normal, [Op.moveRight 1]))
    (h3 : P 'k' (true, Mode.Normal, [Op.moveUp 1]))
    (h4 : P 'j' (true, Mode.Normal, [Op.moveDown 1]))
    (h5 : P 'H' (true, Mode.Normal, [Op.moveLeft 8]))
    (h6 : P 'L' (true, Mode.Normal, [Op.moveRight 8]))
    (h7 : P 'K' (true, Mode.Normal, [Op.moveUp 6]))
    (h8 : P 'J' (true, Mode.Normal, [Op.moveDown 6]))
    (h9 : P 'd' (true, Mode.Normal, [Op.writeStr "▘"]))
    (h10 : P 'f' (true, Mode.Normal, [Op.writeStr "▖"]))
    (h11 : P 'D' (true, Mode.Normal, [Op.writeStr "▀"]))
    (h12 : P 'F' (true, Mode.Normal, [Op.writeStr "▄"]))
    (h13 : P ' ' (true, Mode.Normal, [Op.writeStr " "]))
    (h14 : P 'c' (true, Mode.Normal, [Op.clearAll]))
    (h15 : P 'q' (false, Mode.Normal, []))
    (h16 : P 'i' (true, Mode.Insert t.cursor, [Op.query, Op.setGlyph Glyph.bar]))
    (hother : ∀ c', c' ∉ normalChars → P c' (true, Mode.Normal, [])) :
    P c (handle_input Mode.Normal t (Key.Char c)) := by
  rw [handle_input_normal_char]
  by_cases e1 : c = 'h'
  · rw [if_pos e1, e1]; exact h1
  rw [if_neg e1]
  by_cases e2 : c = 'l'
  · rw [if_pos e2, e2]; exact h2
  rw [if_neg e2]
  by_cases e3 : c = 'k'
  · rw [if_pos e3, e3]; exact h3
  rw [if_neg e3]
  by_cases e4 : c = 'j'
  · rw [if_pos e4, e4]; exact h4
  rw [if_neg e4]
  by_cases e5 : c = 'H'
  · rw [if_pos e5, e5]; exact h5
  rw [if_neg e5]
  by_cases e6 : c = 'L'
  · rw [if_pos e6, e6]; exact h6
  rw [if_neg e6]
  by_cases e7 : c = 'K'
  · rw [if_pos e7, e7]; exact h7
  rw [if_neg e7]
  by_cases e8 : c = 'J'
  · rw [if_pos e8, e8]; exact h8
  rw [if_neg e8]
  by_cases e9 : c = 'd'
  · rw [if_pos e9, e9]; exact h9
  rw [if_neg e9]
  by_cases e10 : c = 'f'
  · rw [if_pos e10, e10]; exact h10
  rw [if_neg e10]
  by_cases e11 : c = 'D'
  · rw [if_pos e11, e11]; exact h11
  rw [if_neg e11]
  by_cases e12 : c = 'F'
  · rw [if_pos e12, e12]; exact h12
  rw [if_neg e12]
  by_cases e13 : c = ' '
  · rw [if_pos e13, e13]; exact h13
  rw [if_neg e13]
  by_cases e14 : c = 'c'
  · rw [if_pos e14, e14]; exact h14
  rw [if_neg e14]
  by_cases e15 : c = 'q'
  · rw [if_pos e15, e15]; exact h15
  rw [if_neg e15]
  by_cases e16 : c = 'i'
  · rw [if_pos e16, e16]; exact h16
  rw [if_neg e16]
  exact hother c (by simp [normalChars, e1, e2, e3, e4, e5, e6, e7, e8, e9, e10,
    e11, e12, e13, e14, e15, e16])

/-- Case analysis on the Insert-mode character dispatch: Enter, or any other
character written literally. -/
theorem insert_char_cases (ent : Nat × Nat) (t : Term)
    (P : Char → Bool × Mode × List Op → Prop) (c : Char)
    (hnl : P '\n' (true, Mode.Insert ent, [Op.query, Op.goto ent.1 (t.cursor.2 + 1)]))
    (hch : ∀ c', c' ≠ '\n' → P c' (true, Mode.Insert ent, [Op.writeChar c'])) :
    P c (handle_input (Mode.Insert ent) t (Key.Char c)) := by
  rw [handle_input_insert_char]
  by_cases e1 : c = '\n'
  · rw [if_pos e1, e1]; exact hnl
  · rw [if_neg e1]; exact hch c e1

/-- The manual's bounding box: 49 columns (the widest line) by 27 rows. -/
theorem manual_shape : get_text_shape MANUAL_LINES = (49, 27) := by decide

/-- No line-placement operation of the manual renderer changes the glyph. -/
theorem flatten_lines_no_setGlyph (a b : Nat) (L : List (Nat × String)) :
    ((L.map fun p => [Op.goto a (b + p.1), Op.writeStr p.2]).flatten).any isSetGlyph
      = false := by
  induction L with
  | nil => rfl
  | cons x L ih => simp [ih, isSetGlyph]

/-- The manual renderer emits no glyph change on any terminal size. -/
theorem show_manual_no_setGlyph (W H : Nat) :
    ((show_manual W H).getD []).any isSetGlyph = false := by
  simp only [show_manual]
  by_cases h : W < (get_text_shape MANUAL_LINES).1 ∨ H < (get_text_shape MANUAL_LINES).2
  · rw [if_pos h]; rfl
  · rw [if_neg h]
    simp only [Option.getD_some, List.any_append]
    rw [flatten_lines_no_setGlyph]
    rfl

/-- Nothing emitted before the read loop changes the glyph. -/
theorem startup_no_setGlyph (W H : Nat) :
    (startup_ops W H).any isSetGlyph = false := by
  simp only [startup_ops, List.any_append]
  rw [show_manual_no_setGlyph]
  rfl

/-- A key with a movement displacement is one of the eight movement
characters. -/
theorem moveDelta_char_cases (k : Key) (hk : (moveDelta k).isSome = true) :
    k = Key.Char 'h' ∨ k = Key.Char 'l' ∨ k = Key.Char 'k' ∨ k = Key.Char 'j' ∨
    k = Key.Char 'H' ∨ k = Key.Char 'L' ∨ k = Key.Char 'K' ∨ k = Key.Char 'J' := by
  cases k with
  | Char c =>
    simp only [moveDelta] at hk
    split_ifs at hk with e1 e2 e3 e4 e5 e6 e7 e8 <;> simp_all
  | Ctrl c => simp [moveDelta] at hk
  | Esc => simp [moveDelta] at hk
  | Backspace => simp [moveDelta] at hk
  | Other => simp [moveDelta] at hk

/-- One movement key in Normal mode: when the displaced position stays in
bounds, the device's clamping is inactive and the cursor moves by exactly
the key's displacement; mode, size and continue flag are untouched. -/
theorem movement_step (t : Term) (k : Key) (hk : (moveDelta k).isSome = true)
    (hx1 : 1 ≤ (t.cursor.1 : Int) + ((moveDelta k).getD (0, 0)).1)
    (hx2 : (t.cursor.1 : Int) + ((moveDelta k).getD (0, 0)).1 ≤ (t.width : Int))
    (hy1 : 1 ≤ (t.cursor.2 : Int) + ((moveDelta k).getD (0, 0)).2)
    (hy2 : (t.cursor.2 : Int) + ((moveDelta k).getD (0, 0)).2 ≤ (t.height : Int)) :
    (handle_input Mode.Normal t k).1 = true ∧
    (handle_input Mode.Normal t k).2.1 = Mode.Normal ∧
    (applyOps t (handle_input Mode.Normal t k).2.2).width = t.width ∧
    (applyOps t (handle_input Mode.Normal t k).2.2).height = t.height ∧
    ((applyOps t (handle_input Mode.Normal t k).2.2).cursor.1 : Int)
      = (t.cursor.1 : Int) + ((moveDelta k).getD (0, 0)).1 ∧
    ((applyOps t (handle_input Mode.Normal t k).2.2).cursor.2 : Int)
      = (t.cursor.2 : Int) + ((moveDelta k).getD (0, 0)).2 := by
  rcases moveDelta_char_cases k hk with rfl | rfl | rfl | rfl | rfl | rfl | rfl | rfl <;>
    refine ⟨rfl, rfl, rfl, rfl, ?_, ?_⟩ <;>
    · simp [handle_input_normal_char, applyOps, applyOp, moveDelta,
        Term.clampX, Term.clampY] at *
      try omega

/-- Displacement sums distribute over cons. -/
theorem sumDelta_cons (k : Key) (ks : List Key) :
    sumDelta (k :: ks) = (moveDelta k).getD (0, 0) + sumDelta ks := by
  simp [sumDelta]

/-- The empty sequence has no displacement. -/
theorem sumDelta_nil : sumDelta [] = (0, 0) := rfl

/-- The read loop stops at a `q` pressed in Normal mode: nothing more is
emitted, the device is untouched, and the remaining keys are unconsumed. -/
theorem run_loop_quit (t : Term) (ks : List Key) :
    run_loop Mode.Normal t (Key.Char 'q' :: ks) = (Mode.Normal, t, [], ks) := by
  rw [run_loop]
  simp [handle_input_normal_char]

/-- C1 (amended): in Insert mode, for every cursor position (c, r) with
c ≥ 2, Backspace continues the loop, keeps the mode, erases exactly the one
cell (c-1, r) to a space, and leaves the cursor at (c-1, r) — realized as
move-left-1, write a space, move-left-1.  (At c = 1 the device clamps the
left moves, see the counterexample.) -/
theorem insert_backspace_erases_one_cell (e : Nat × Nat) (t : Term) (c r : Nat)
    (hc : t.cursor = (c, r)) (h2 : 2 ≤ c) (hw : c ≤ t.width) :
    (handle_input (Mode.Insert e) t Key.Backspace).1 = true ∧
    (handle_input (Mode.Insert e) t Key.Backspace).2.1 = Mode.Insert e ∧
    (applyOps t (handle_input (Mode.Insert e) t Key.Backspace).2.2).cursor = (c - 1, r) ∧
    (∀ p, (applyOps t (handle_input (Mode.Insert e) t Key.Backspace).2.2).screen p
        = if p = (c - 1, r) then ' ' else t.screen p) := by
  have h1 : max 1 (c - 1) = c - 1 := by omega
  refine ⟨rfl, rfl, ?_, ?_⟩
  · simp [applyOps, applyOp, putChar, Term.clampX, handle_input, hc]
    omega
  · intro p
    simp [applyOps, applyOp, putChar, Term.clampX, handle_input, hc, h1]

/-- C1 witness: from (4, 5) on an 80 by 24 device, Backspace leaves the
cursor at (3, 5). -/
theorem insert_backspace_erases_one_cell_witness :
    (applyOps t1w (handle_input (Mode.Insert (3, 3)) t1w Key.Backspace).2.2).cursor
      = (3, 5) :=
  (insert_backspace_erases_one_cell (3, 3) t1w 4 5 rfl (by decide) (by decide)).2.2.1

/-- C1 counterexample: at column 1 the device clamps the left moves, so the
cursor ends at (1, 5), not at (col-1, row) = (0, 5) as the claim states for
every cursor position. -/
theorem backspace_at_column_one :
    (applyOps t1c (handle_input (Mode.Insert (3, 3)) t1c Key.Backspace).2.2).cursor
        = (1, 5) ∧
    ¬ ((1, 5) : Nat × Nat) = (0, 5) := by decide

/-- C2 (amended): in Insert(entrance) mode, Enter emits exactly a query and
the absolute move to (entrance.column, r + 1), independent of the cursor
column; when that target is on the screen (in particular when r is not the
bottom row) the final cursor position is exactly (entrance.column, r + 1).
(On the bottom row the device clamps the row, see the counterexample.) -/
theorem insert_enter_entrance_column (e : Nat × Nat) (t : Term) :
    handle_input (Mode.Insert e) t (Key.Char '\n')
      = (true, Mode.Insert e, [Op.query, Op.goto e.1 (t.cursor.2 + 1)]) ∧
    (1 ≤ e.1 → e.1 ≤ t.width → t.cursor.2 + 1 ≤ t.height →
      (applyOps t (handle_input (Mode.Insert e) t (Key.Char '\n')).2.2).cursor
        = (e.1, t.cursor.2 + 1)) := by
  refine ⟨rfl, fun h1 h2 h3 => ?_⟩
  simp [applyOps, applyOp, handle_input, Term.clampX, Term.clampY]
  constructor <;> omega

/-- C2 witness: with entrance column 3 and the cursor at (7, 10) on an 80
by 24 device, Enter lands on (3, 11). -/
theorem insert_enter_entrance_column_witness :
    (applyOps t2w (handle_input (Mode.Insert (3, 2)) t2w (Key.Char '\n')).2.2).cursor
      = (3, 11) := by
  have h := (insert_enter_entrance_column (3, 2) t2w).2 (by decide) (by decide) (by decide)
  simpa using h

/-- C2 counterexample: on the bottom row of a 40-row device the requested
row 41 is clamped, so the cursor ends at (3, 40), not (entrance.column,
r + 1) = (3, 41) as the claim states for every cursor position. -/
theorem enter_at_bottom_row :
    (applyOps t2c (handle_input (Mode.Insert (3, 2)) t2c (Key.Char '\n')).2.2).cursor
        = (3, 40) ∧
    ¬ ((3, 40) : Nat × Nat) = (3, 40 + 1) := by decide

/-- C3 (amended): the clear-screen operation itself never moves the cursor,
and the startup clear (`App::clear_screen`) is immediately followed by an
absolute move to (1, 1); but the `c` key in Normal mode emits the clear
with no following absolute move, leaving the cursor where it was — so
"every emission of clear is followed by a goto" fails on the `c` path. -/
theorem clear_screen_goto_paths (t : Term) :
    (applyOp t Op.clearAll).cursor = t.cursor ∧
    clear_screen_ops = [Op.clearAll, Op.goto 1 1] ∧
    clearFollowedByGoto clear_screen_ops = true ∧
    (handle_input Mode.Normal t (Key.Char 'c')).2.2 = [Op.clearAll] ∧
    (applyOps t (handle_input Mode.Normal t (Key.Char 'c')).2.2).cursor = t.cursor :=
  ⟨rfl, rfl, rfl, rfl, rfl⟩

/-- C3 counterexample: the operations emitted for the `c` key contain a
clear with no absolute cursor move after it. -/
theorem clear_key_not_followed_by_goto :
    clearFollowedByGoto (handle_input Mode.Normal t2w (Key.Char 'c')).2.2 = false := by
  decide

/-- C4 (amended): help-screen rendering succeeds on a large-enough terminal
and its last emitted operation parks the cursor at the fixed relative
offset (5, 5) from the computed origin of the text block; no cursor-glyph
change is emitted anywhere in the rendering. -/
theorem show_manual_parks_cursor (W H : Nat) (hW : 49 ≤ W) (hH : 27 ≤ H) :
    (show_manual W H).isSome = true ∧
    ((show_manual W H).getD []).getLast?
      = some (Op.goto ((W - 49) / 2 + 5) ((H - 27) / 2 + 5)) ∧
    ((show_manual W H).getD []).any isSetGlyph = false := by
  refine ⟨?_, ?_, show_manual_no_setGlyph W H⟩ <;>
  · simp only [show_manual, manual_shape]
    rw [if_neg (by omega : ¬ (W < (49, 27).1 ∨ H < (49, 27).2))]
    simp [List.getLast?_concat]

/-- C4 witness: on a 100 by 40 terminal the rendering ends with a move to
(30, 11) = ((100-49)/2 + 5, (40-27)/2 + 5) and changes no glyph. -/
theorem show_manual_parks_cursor_witness :
    (show_manual 100 40).isSome = true ∧
    ((show_manual 100 40).getD []).getLast? = some (Op.goto 30 11) ∧
    ((show_manual 100 40).getD []).any isSetGlyph = false :=
  show_manual_parks_cursor 100 40 (by norm_num) (by norm_num)

/-- C4 counterexample: the startup rendering on a 100 by 40 terminal emits
operations, none of which switches the cursor glyph — no block-cursor
switch happens, contrary to the claim. -/
theorem show_manual_sets_no_glyph :
    (show_manual 100 40).isSome = true ∧
    ((show_manual 100 40).getD []).any isSetGlyph = false := by decide

/-- C5 (amended): a cursor-position query is emitted exactly when `i` is
pressed in Normal mode and when Enter is pressed in Insert mode; in
particular the Backspace handler queries nothing, and no other key handler
queries. -/
theorem query_sites (m : Mode) (t : Term) (k : Key) :
    Op.query ∈ (handle_input m t k).2.2 ↔
      (m = Mode.Normal ∧ k = Key.Char 'i') ∨
      (∃ e, m = Mode.Insert e ∧ k = Key.Char '\n') := by
  cases m with
  | Normal =>
    cases k with
    | Char c =>
      refine normal_char_cases t
        (fun c' out => Op.query ∈ out.2.2 ↔
          (Mode.Normal = Mode.Normal ∧ Key.Char c' = Key.Char 'i') ∨
          (∃ e, Mode.Normal = Mode.Insert e ∧ Key.Char c' = Key.Char '\n')) c
        ?_ ?_ ?_ ?_ ?_ ?_ ?_ ?_ ?_ ?_ ?_ ?_ ?_ ?_ ?_ ?_ ?_ <;>
        try (simp <;> try decide)
      intro c' hc'
      simp only [normalChars, List.mem_cons, List.mem_singleton] at hc'
      push_neg at hc'
      simp [hc'.2.2.2.2.2.2.2.2.2.2.2.2.2.2.2]
    | Ctrl c => simp [handle_input]
    | Esc => simp [handle_input]
    | Backspace => simp [handle_input]
    | Other => simp [handle_input]
  | Insert ent =>
    cases k with
    | Char c =>
      refine insert_char_cases ent t
        (fun c' out => Op.query ∈ out.2.2 ↔
          (Mode.Insert ent = Mode.Normal ∧ Key.Char c' = Key.Char 'i') ∨
          (∃ e, Mode.Insert ent = Mode.Insert e ∧ Key.Char c' = Key.Char '\n')) c ?_ ?_
      · simp
      · intro c' hc'; simp [hc']
    | Ctrl c =>
      rw [handle_input_insert_ctrl]
      by_cases e1 : c = '['
      · rw [if_pos e1]; simp
      · rw [if_neg e1]; simp
    | Esc => simp [handle_input]
    | Backspace => simp [handle_input]
    | Other => simp [handle_input]

/-- C5 counterexample: the Backspace handler in Insert mode emits no
cursor-position query, contrary to the claim's list of query sites. -/
theorem backspace_queries_nothing :
    Op.query ∉ (handle_input (Mode.Insert (3, 3)) t2w Key.Backspace).2.2 := by decide

/-- C6 (amended): every `handle_input` transition preserves the invariant
"glyph is a bar iff the mode is Insert, a block iff Normal" — if the glyph
matches the mode before a key, it matches after; and startup emits no glyph
change at all, so the invariant holds from startup only if the terminal's
initial glyph is already a block. -/
theorem mode_glyph_lockstep (m : Mode) (t : Term) (k : Key)
    (hinv : t.glyph = modeGlyph m) :
    (applyOps t (handle_input m t k).2.2).glyph = modeGlyph (handle_input m t k).2.1 ∧
    (∀ W H, (startup_ops W H).any isSetGlyph = false) := by
  refine ⟨?_, fun W H => startup_no_setGlyph W H⟩
  cases m with
  | Normal =>
    cases k with
    | Char c =>
      refine normal_char_cases t
        (fun c' out => (applyOps t out.2.2).glyph = modeGlyph out.2.1) c
        ?_ ?_ ?_ ?_ ?_ ?_ ?_ ?_ ?_ ?_ ?_ ?_ ?_ ?_ ?_ ?_ ?_ <;>
        first
        | exact hinv
        | rfl
        | exact fun c' _ => hinv
    | Ctrl c => exact hinv
    | Esc => exact hinv
    | Backspace => exact hinv
    | Other => exact hinv
  | Insert ent =>
    cases k with
    | Char c =>
      refine insert_char_cases ent t
        (fun c' out => (applyOps t out.2.2).glyph = modeGlyph out.2.1) c ?_ ?_
      · exact hinv
      · exact fun c' _ => hinv
    | Ctrl c =>
      rw [handle_input_insert_ctrl]
      by_cases e1 : c = '['
      · rw [if_pos e1]; rfl
      · rw [if_neg e1]; exact hinv
    | Esc => rfl
    | Backspace => exact hinv
    | Other => exact hinv

/-- C6 witness: from a Normal-mode state with a block glyph, pressing `i`
leaves the glyph matching the new mode (a bar for Insert). -/
theorem mode_glyph_lockstep_witness :
    (applyOps t6w (handle_input Mode.Normal t6w (Key.Char 'i')).2.2).glyph
      = modeGlyph (handle_input Mode.Normal t6w (Key.Char 'i')).2.1 ∧
    (∀ W H, (startup_ops W H).any isSetGlyph = false) :=
  mode_glyph_lockstep Mode.Normal t6w (Key.Char 'i') rfl

set_option maxRecDepth 4000 in
/-- C6 counterexample: startup emits no glyph change, so on a terminal whose
glyph starts as a bar the program is in Normal mode with a bar glyph after
startup — the claimed lockstep fails at program startup. -/
theorem startup_breaks_lockstep :
    (applyOps t4c (startup_ops 100 40)).glyph ≠ modeGlyph Mode.Normal := by decide

/-- C7: with the manual's bounding box (49, 27), rendering on a `W` by `H`
terminal fails (emitting nothing) exactly when the terminal is strictly
smaller in a dimension; otherwise the origin is ((W-49)/2, (H-27)/2) and
line `i` is written left-aligned at that column on row origin-row + i, the
lines on consecutive rows. -/
theorem show_manual_layout (W H : Nat) :
    ((W < 49 ∨ H < 27) → show_manual W H = none) ∧
    (49 ≤ W → 27 ≤ H →
      ∃ ops, show_manual W H = some ops ∧
        ∀ i, i < 27 →
          ops[2 * i]? = some (Op.goto ((W - 49) / 2) ((H - 27) / 2 + i)) ∧
          ops[2 * i + 1]? = some (Op.writeStr (MANUAL_LINES.getD i ""))) := by
  constructor
  · intro h
    simp only [show_manual, manual_shape]
    rw [if_pos (by omega : (W < (49, 27).1 ∨ H < (49, 27).2))]
  · intro hW hH
    refine ⟨(MANUAL_LINES.enum.map fun p =>
        [Op.goto ((W - 49) / 2) ((H - 27) / 2 + p.1), Op.writeStr p.2]).flatten
        ++ [Op.goto ((W - 49) / 2 + 5) ((H - 27) / 2 + 5)], ?_, ?_⟩
    · simp only [show_manual, manual_shape]
      rw [if_neg (by omega : ¬ (W < (49, 27).1 ∨ H < (49, 27).2))]
    · intro i hi
      interval_cases i <;> exact ⟨rfl, rfl⟩

/-- C7 witness: on a 100 by 40 terminal every manual line `i` is placed at
column 25 on row 6 + i. -/
theorem show_manual_layout_witness :
    ∃ ops, show_manual 100 40 = some ops ∧
      ∀ i, i < 27 →
        ops[2 * i]? = some (Op.goto 25 (6 + i)) ∧
        ops[2 * i + 1]? = some (Op.writeStr (MANUAL_LINES.getD i "")) :=
  (show_manual_layout 100 40).2 (by norm_num) (by norm_num)

/-- C8: for every sequence of movement keys processed by the Normal-mode
loop, while every partial sum of the per-key displacements stays within the
device's edges (so its clamping never engages), the loop stays in Normal
mode, consumes every key, and the resulting absolute cursor position is the
starting position plus the sum of the per-key displacements — h/l/k/j one
cell, H/L eight columns, K/J six rows. -/
theorem normal_movement_sums (ks : List Key) (t : Term)
    (hmv : ∀ k ∈ ks, (moveDelta k).isSome = true)
    (hin : ∀ n, n ≤ ks.length →
      1 ≤ (t.cursor.1 : Int) + (sumDelta (ks.take n)).1 ∧
      (t.cursor.1 : Int) + (sumDelta (ks.take n)).1 ≤ (t.width : Int) ∧
      1 ≤ (t.cursor.2 : Int) + (sumDelta (ks.take n)).2 ∧
      (t.cursor.2 : Int) + (sumDelta (ks.take n)).2 ≤ (t.height : Int)) :
    (run_loop Mode.Normal t ks).1 = Mode.Normal ∧
    (run_loop Mode.Normal t ks).2.2.2 = [] ∧
    ((run_loop Mode.Normal t ks).2.1.cursor.1 : Int)
      = (t.cursor.1 : Int) + (sumDelta ks).1 ∧
    ((run_loop Mode.Normal t ks).2.1.cursor.2 : Int)
      = (t.cursor.2 : Int) + (sumDelta ks).2 := by
  induction ks generalizing t with
  | nil => simp [run_loop, sumDelta]
  | cons k ks ih =>
    have hk : (moveDelta k).isSome = true := hmv k (by simp)
    have h1 := hin 1 (by simp)
    rw [List.take_one] at h1
    simp only [List.head?_cons, Option.toList_some, sumDelta_cons, sumDelta_nil,
      Prod.fst_add, Prod.snd_add, Prod.fst_zero, Prod.snd_zero, add_zero] at h1
    obtain ⟨hx1, hx2, hy1, hy2⟩ := h1
    obtain ⟨sc, sm, sw, sh, sx, sy⟩ := movement_step t k hk hx1 hx2 hy1 hy2
    set t' := applyOps t (handle_input Mode.Normal t k).2.2 with ht'
    have ihres := ih t' (fun k' hk' => hmv k' (List.mem_cons_of_mem _ hk')) ?_
    · obtain ⟨i1, i2, i3, i4⟩ := ihres
      have hrun : run_loop Mode.Normal t (k :: ks)
          = ((run_loop Mode.Normal t' ks).1, (run_loop Mode.Normal t' ks).2.1,
             (handle_input Mode.Normal t k).2.2 ++ (run_loop Mode.Normal t' ks).2.2.1,
             (run_loop Mode.Normal t' ks).2.2.2) := by
        rw [run_loop]
        simp only [sc, if_true, ht', sm]
      rw [hrun]
      refine ⟨i1, i2, ?_, ?_⟩ <;>
        simp only [sumDelta_cons, Prod.fst_add, Prod.snd_add, i3, i4, sx, sy] <;>
        ring
    · intro n hn
      have h2 := hin (n + 1) (by simpa using hn)
      simp only [List.take_succ_cons, sumDelta_cons, Prod.fst_add, Prod.snd_add] at h2
      rw [sw, sh, sx, sy]
      refine ⟨by omega, by omega, by omega, by omega⟩

/-- C8 witness: from (10, 10) on an 80 by 24 device, the keys l, J, h sum
to displacement (0, 6), and the loop lands there. -/
theorem normal_movement_sums_witness :
    (run_loop Mode.Normal t8w ks8).1 = Mode.Normal ∧
    (run_loop Mode.Normal t8w ks8).2.2.2 = [] ∧
    ((run_loop Mode.Normal t8w ks8).2.1.cursor.1 : Int)
      = (t8w.cursor.1 : Int) + (sumDelta ks8).1 ∧
    ((run_loop Mode.Normal t8w ks8).2.1.cursor.2 : Int)
      = (t8w.cursor.2 : Int) + (sumDelta ks8).2 :=
  normal_movement_sums ks8 t8w (by decide) (by decide)

/-- C9: `q` in Normal mode stops the loop immediately (emitting nothing and
consuming no further key) and the full run's trace performs the raw-mode
restoration exactly once; `q` in Insert mode is written as the literal
character, the mode unchanged. -/
theorem quit_key (t : Term) (e : Nat × Nat) (ks : List Key) :
    handle_input Mode.Normal t (Key.Char 'q') = (false, Mode.Normal, []) ∧
    handle_input (Mode.Insert e) t (Key.Char 'q') = (true, Mode.Insert e, [Op.writeChar 'q']) ∧
    run_loop Mode.Normal t (Key.Char 'q' :: ks) = (Mode.Normal, t, [], ks) ∧
    ((run_trace 100 40 t (Key.Char 'q' :: ks)).getD []).count Op.restore = 1 := by
  have hsm : show_manual 100 40 = some ((show_manual 100 40).getD []) := rfl
  refine ⟨rfl, rfl, run_loop_quit t ks, ?_⟩
  rw [run_trace, hsm]
  simp only [run_loop_quit]
  decide

/-- C10: the too-small check rejects exactly the terminals strictly smaller
than the manual's 49 by 27 box; at the boundary sizes that pass it with
W = 49 the rendering's first absolute move has column 0, and with H = 27 it
has row 0 — both outside the valid 1-indexed coordinate range (which starts
at 1). -/
theorem size_check_boundary (W H : Nat) :
    (show_manual W H = none ↔ (W < 49 ∨ H < 27)) ∧
    (27 ≤ H → ((show_manual 49 H).getD []).head? = some (Op.goto 0 ((H - 27) / 2))) ∧
    (49 ≤ W → ((show_manual W 27).getD []).head? = some (Op.goto ((W - 49) / 2) 0)) := by
  refine ⟨?_, ?_, ?_⟩
  · by_cases h : W < 49 ∨ H < 27
    · simp only [show_manual, manual_shape]
      rw [if_pos (by omega : (W < (49, 27).1 ∨ H < (49, 27).2))]
      simp [h]
    · simp only [show_manual, manual_shape]
      rw [if_neg (by omega : ¬ (W < (49, 27).1 ∨ H < (49, 27).2))]
      simp [h]
  · intro hH
    simp only [show_manual, manual_shape]
    rw [if_neg (by omega : ¬ ((49 : Nat) < (49, 27).1 ∨ H < (49, 27).2))]
    rfl
  · intro hW
    simp only [show_manual, manual_shape]
    rw [if_neg (by omega : ¬ (W < (49, 27).1 ∨ (27 : Nat) < (49, 27).2))]
    rfl

/-- C10 witness: on a 49 by 30 terminal (width equal to the text's), the
first emitted absolute move is to column 0. -/
theorem size_check_boundary_witness :
    ((show_manual 49 30).getD []).head? = some (Op.goto 0 1) :=
  (size_check_boundary 49 30).2.1 (by norm_num)

end Stbb
